import Mathlib

/-!
Shallow embedding of the save-cycle scheduler of
`src/ableton_saver_v6.py` (class AbletonSaver).

Modelling conventions:
* Wall-clock time (`time.time()`) is a rational number of seconds; each
  handler that reads the clock takes the current time `now` as an argument.
* Python's `int(x)` truncates a float toward zero; `pyTrunc` is its
  counterpart on ℚ.
* The scheduler state is the set of instance attributes that the scheduler
  methods read or write: `is_running`, `interval_seconds`, `next_save_time`,
  `time_unit`, the preset-button selection, and the text of the labels the
  tick/toggle handlers touch.  Widget styling (`setStyleSheet`) has no
  behavioural content and is omitted.
* External collaborators are inputs: the AppKit process list queried by
  `is_ableton_running` is an `Except Unit (List (Option String))`
  (`.error ()` models any exception raised while querying; each element
  models `app.localizedName()`, `none` for a null name), and the result of
  `run_applescript` inside `perform_save` is a `Bool`.
* External effects are outputs: `TickEffects` records whether a tick invoked
  `perform_save` and whether it called `play_notification_sound()`
  (the sound playback itself is fire-and-forget platform glue).
* `time.strftime` formatting of the save timestamp is abstracted by
  `strftimeHMS`; only which of the two label shapes ("Saved @ ..." vs
  "Save failed @ ...") is produced matters to the spec.
-/

/-- Python `int()` on a rational: truncation toward zero. -/
def pyTrunc (q : ℚ) : ℤ :=
  if q < 0 then Int.ceil q else Int.floor q

/-- Python `f"{n:02d}"`: zero-pad a single decimal digit to width two. -/
def fmt02 (n : ℤ) : String :=
  if 0 ≤ n ∧ n < 10 then "0" ++ toString n else toString n

/-- `update_timer_display`: `mins, secs = divmod(seconds, 60)` (Python
`divmod` floors) rendered as `f"{mins:02d}:{secs:02d}"`. -/
def timerDisplay (seconds : ℤ) : String :=
  fmt02 (Int.fdiv seconds 60) ++ ":" ++ fmt02 (Int.fmod seconds 60)

/-- Abstraction of `time.strftime('%H:%M:%S')` evaluated at tick time
`now`; the exact text is platform glue, only the label prefix matters. -/
def strftimeHMS (now : ℚ) : String :=
  toString now

/-- Python's substring test `needle in hay` on lists of characters. -/
def charsContain (needle : List Char) : List Char → Bool
  | [] => needle.isEmpty
  | c :: rest => needle.isPrefixOf (c :: rest) || charsContain needle rest

/-- Python's substring test `needle in hay` on strings. -/
def strContains (hay needle : String) : Bool :=
  charsContain needle.toList hay.toList

/-- The scheduler-relevant instance attributes of class `AbletonSaver`. -/
structure SaverState where
  is_running : Bool
  interval_seconds : ℤ
  next_save_time : ℚ
  time_unit : String
  selected_button : Option ℕ
  btn_toggle_text : String
  lbl_timer : String
  lbl_timer_desc : String
  lbl_last_saved : String
deriving DecidableEq, Repr

/-- Initial attribute values set in `__init__` / `build_ui`:
`is_running = False`, `interval_seconds = 300`, `next_save_time = 0`,
`time_unit = "MIN"`, the 5m preset selected, and the initial label texts. -/
def initial_state : SaverState :=
  { is_running := false
    interval_seconds := 300
    next_save_time := 0
    time_unit := "MIN"
    selected_button := some 1
    btn_toggle_text := "START AUTO-SAVE"
    lbl_timer := "05:00"
    lbl_timer_desc := "NEXT SAVE CYCLE"
    lbl_last_saved := "Waiting to start..." }

/-- `set_interval(self, seconds, clicked_btn)`: store the preset seconds,
mark only the clicked preset button selected, refresh the countdown label. -/
def set_interval (st : SaverState) (seconds : ℤ) (clicked_btn : ℕ) : SaverState :=
  { st with
    interval_seconds := seconds
    selected_button := some clicked_btn
    lbl_timer := timerDisplay seconds }

/-- `set_custom_interval(self)`: `parsed` is the outcome of
`float(self.entry_custom.text())` — `none` when it (or the subsequent
`int()` conversion) raises, in which case the bare `except: pass` leaves
every attribute unchanged and signals nothing.  On success the value is
converted with `int(val * 60)` in MIN mode or `int(val)` in SEC mode and
stored unconditionally; all preset buttons are deselected. -/
def set_custom_interval (st : SaverState) (parsed : Option ℚ) : SaverState :=
  match parsed with
  | none => st
  | some val =>
    let seconds : ℤ := if st.time_unit = "MIN" then pyTrunc (val * 60) else pyTrunc val
    { st with
      interval_seconds := seconds
      selected_button := none
      lbl_timer := timerDisplay seconds }

/-- `toggle_running(self)` at clock time `now`: flip `is_running`; when the
new value is true set `next_save_time = now + interval_seconds` and the
monitoring caption; when false restore the idle caption and the interval
countdown display (note: `next_save_time` is not assigned in this branch). -/
def toggle_running (st : SaverState) (now : ℚ) : SaverState :=
  if !st.is_running then
    { st with
      is_running := true
      btn_toggle_text := "STOP AUTO-SAVE"
      next_save_time := now + (st.interval_seconds : ℚ)
      lbl_timer_desc := "MONITORING ABLETON..." }
  else
    { st with
      is_running := false
      btn_toggle_text := "START AUTO-SAVE"
      lbl_timer_desc := "NEXT SAVE CYCLE"
      lbl_timer := timerDisplay st.interval_seconds }

/-- `is_ableton_running(self)`: scan `runningApplications()` for a
localized name containing "Live" or "Ableton" (`app.localizedName() or ""`);
any exception while querying is swallowed and the function returns False. -/
def is_ableton_running (apps : Except Unit (List (Option String))) : Bool :=
  match apps with
  | .error _ => false
  | .ok running_apps =>
    running_apps.any fun app =>
      let name := app.getD ""
      strContains name "Live" || strContains name "Ableton"

/-- `perform_save(self)` at clock time `now`, where `save_ok` is the
Boolean returned by `run_applescript` for the Cmd+S script: set the
last-saved label to the success or failure message. -/
def perform_save (st : SaverState) (now : ℚ) (save_ok : Bool) : SaverState :=
  if save_ok then
    { st with lbl_last_saved := "Saved @ " ++ strftimeHMS now }
  else
    { st with lbl_last_saved := "Save failed @ " ++ strftimeHMS now }

/-- Externally observable side effects of one `timer_loop` invocation:
whether `perform_save` was invoked and whether
`play_notification_sound()` was called. -/
structure TickEffects where
  save_attempted : Bool
  notified : Bool
deriving DecidableEq, Repr

/-- The inputs one `timer_loop` invocation draws from the environment:
the clock reading, the process list (or probe failure), and the
AppleScript result that `perform_save` would observe. -/
structure TickInput where
  now : ℚ
  apps : Except Unit (List (Option String))
  save_ok : Bool

/-- `timer_loop(self)`: the 100 ms `QTimer` callback.  When running,
compute `remaining = int(next_save_time - time.time())`; if `remaining <= 0`
probe for Ableton and either save-advance-notify or show the paused labels;
otherwise just refresh the countdown display. -/
def timer_loop (st : SaverState) (inp : TickInput) : SaverState × TickEffects :=
  if st.is_running then
    if pyTrunc (st.next_save_time - inp.now) ≤ 0 then
      if is_ableton_running inp.apps then
        let st1 := perform_save st inp.now inp.save_ok
        ({ st1 with next_save_time := inp.now + (st1.interval_seconds : ℚ) },
         { save_attempted := true, notified := true })
      else
        ({ st with lbl_timer := "PAUSED", lbl_timer_desc := "Open Ableton to resume" },
         { save_attempted := false, notified := false })
    else
      ({ st with lbl_timer := timerDisplay (pyTrunc (st.next_save_time - inp.now)) },
       { save_attempted := false, notified := false })
  else
    (st, { save_attempted := false, notified := false })

/-- The host `QTimer` firing repeatedly: run `timer_loop` over a list of
tick inputs, returning the final state and the number of ticks that
invoked `perform_save`. -/
def runTicks : SaverState → List TickInput → SaverState × ℕ
  | st, [] => (st, 0)
  | st, inp :: rest =>
    let r := timer_loop st inp
    let r2 := runTicks r.1 rest
    (r2.1, (if r.2.save_attempted then 1 else 0) + r2.2)

/-- Concrete monitoring state: running with the next save due at t = 300. -/
def monitoring300 : SaverState :=
  { initial_state with is_running := true, next_save_time := 300 }

/-- Concrete monitoring state: running with the next save due at t = 100. -/
def monitoring100 : SaverState :=
  { initial_state with
    is_running := true
    next_save_time := 100
    btn_toggle_text := "STOP AUTO-SAVE"
    lbl_timer_desc := "MONITORING ABLETON..." }

/-- Concrete monitoring state: running with the next save due at t = 250. -/
def monitoring250 : SaverState :=
  { initial_state with is_running := true, next_save_time := 250 }

/-- Concrete monitoring state: running with the next save due at t = 1/2,
used to exercise the sub-second truncation window. -/
def monitoringHalf : SaverState :=
  { initial_state with is_running := true, next_save_time := mkRat 1 2 }

/-- A process list in which Ableton Live appears. -/
def abletonPresent : Except Unit (List (Option String)) :=
  .ok [some "Finder", none, some "Ableton Live 11"]

/-- A process list in which Ableton Live does not appear. -/
def abletonAbsent : Except Unit (List (Option String)) :=
  .ok [some "Finder", none, some "Safari"]

/-- Two due ticks at t = 305 and t = 306 that find the target absent (one
by a clean probe, one by a probe failure). -/
def absent_ticks : List TickInput :=
  [{ now := 305, apps := abletonAbsent, save_ok := true },
   { now := 306, apps := .error (), save_ok := true }]

/-- A tick at t = 312 that finds the target present, with the save
succeeding. -/
def present_tick : TickInput :=
  { now := 312, apps := abletonPresent, save_ok := true }

/-- A due tick at t = 305 with the target present and the save failing. -/
def fail_tick : TickInput :=
  { now := 305, apps := abletonPresent, save_ok := false }

/-! Sanity checks of the embedding on concrete values. -/

example : pyTrunc (mkRat 1 2) = 0 := by with_unfolding_all decide
example : pyTrunc (mkRat (-1) 2) = 0 := by with_unfolding_all decide
example : pyTrunc (mkRat (-3) 2) = -1 := by with_unfolding_all decide
example : pyTrunc (mkRat 5 2) = 2 := by with_unfolding_all decide
example : pyTrunc ((300 : ℚ) - 305) = -5 := by with_unfolding_all decide
example : strContains "Ableton Live 11" "Live" = true := by decide
example : strContains "Safari" "Live" = false := by decide
example : is_ableton_running abletonPresent = true := by decide
example : is_ableton_running abletonAbsent = false := by decide
example : timerDisplay 300 = "05:00" := by decide

/-- The truncated value is nonpositive exactly when the exact value is
below one: Python `int(x) <= 0` iff `x < 1`. -/
theorem pyTrunc_nonpos_iff (q : ℚ) : pyTrunc q ≤ 0 ↔ q < 1 := by
  unfold pyTrunc
  split
  · constructor
    · intro _
      linarith
    · intro _
      exact Int.ceil_le.mpr (by push_cast; linarith)
  · rename_i h
    push_neg at h
    constructor
    · intro hf
      have h1 : (⌊q⌋ : ℤ) < 1 := by omega
      exact_mod_cast Int.floor_lt.mp h1
    · intro h1
      have h2 : (⌊q⌋ : ℤ) < 1 := Int.floor_lt.mpr (by exact_mod_cast h1)
      omega

/-- Truncation of a nonpositive rational is nonpositive. -/
theorem pyTrunc_nonpos_of_nonpos {q : ℚ} (h : q ≤ 0) : pyTrunc q ≤ 0 := by
  rw [pyTrunc_nonpos_iff]
  linarith

/-- A tick that finds the target absent (probe failed or no matching app)
leaves the run flag, the due time, the interval and the last-saved label
untouched and attempts no save, whether or not the tick was due. -/
theorem timer_loop_absent_pres (st : SaverState) (inp : TickInput)
    (h : is_ableton_running inp.apps = false) :
    (timer_loop st inp).1.is_running = st.is_running ∧
    (timer_loop st inp).1.next_save_time = st.next_save_time ∧
    (timer_loop st inp).1.interval_seconds = st.interval_seconds ∧
    (timer_loop st inp).1.lbl_last_saved = st.lbl_last_saved ∧
    (timer_loop st inp).2.save_attempted = false := by
  rw [timer_loop]
  cases hr : st.is_running
  · simp [hr]
  · by_cases hd : pyTrunc (st.next_save_time - inp.now) ≤ 0
    · simp [hr, hd, h]
    · simp [hr, hd]

/-- A tick taken at least one full second before the due time leaves
everything except the countdown label untouched and attempts no save. -/
theorem timer_loop_early_pres (st : SaverState) (inp : TickInput)
    (h : 1 ≤ st.next_save_time - inp.now) :
    (timer_loop st inp).1.is_running = st.is_running ∧
    (timer_loop st inp).1.next_save_time = st.next_save_time ∧
    (timer_loop st inp).1.interval_seconds = st.interval_seconds ∧
    (timer_loop st inp).1.lbl_last_saved = st.lbl_last_saved ∧
    (timer_loop st inp).1.lbl_timer_desc = st.lbl_timer_desc ∧
    (timer_loop st inp).2.save_attempted = false := by
  have hd : ¬ pyTrunc (st.next_save_time - inp.now) ≤ 0 := by
    rw [pyTrunc_nonpos_iff]
    linarith
  rw [timer_loop]
  cases hr : st.is_running
  · simp [hr]
  · simp [hr, hd]

/-- A due tick that finds the target present runs `perform_save` and then
reschedules `next_save_time = now + interval_seconds` and notifies. -/
theorem timer_loop_due_present_eq (st : SaverState) (inp : TickInput)
    (hrun : st.is_running = true)
    (hdue : st.next_save_time - inp.now < 1)
    (hpres : is_ableton_running inp.apps = true) :
    timer_loop st inp =
      ({ perform_save st inp.now inp.save_ok with
         next_save_time := inp.now + (st.interval_seconds : ℚ) },
       { save_attempted := true, notified := true }) := by
  have hd : pyTrunc (st.next_save_time - inp.now) ≤ 0 := (pyTrunc_nonpos_iff _).mpr hdue
  rw [timer_loop]
  have hint : (perform_save st inp.now inp.save_ok).interval_seconds = st.interval_seconds := by
    rw [perform_save]
    cases inp.save_ok <;> simp
  simp [hrun, hd, hpres, hint]

/-- Ticks that all find the target absent preserve the run flag, the due
time, the interval and the last-saved label, and attempt no save. -/
theorem runTicks_absent_pres (ts : List TickInput) (st : SaverState)
    (habs : ∀ inp ∈ ts, is_ableton_running inp.apps = false) :
    (runTicks st ts).1.is_running = st.is_running ∧
    (runTicks st ts).1.next_save_time = st.next_save_time ∧
    (runTicks st ts).1.interval_seconds = st.interval_seconds ∧
    (runTicks st ts).1.lbl_last_saved = st.lbl_last_saved ∧
    (runTicks st ts).2 = 0 := by
  induction ts generalizing st with
  | nil => simp [runTicks]
  | cons inp rest ih =>
    have h1 : is_ableton_running inp.apps = false := habs inp (by simp)
    have hstep := timer_loop_absent_pres st inp h1
    have hrest := ih (timer_loop st inp).1 (fun i hi => habs i (by simp [hi]))
    rw [runTicks]
    refine ⟨?_, ?_, ?_, ?_, ?_⟩ <;> simp only []
    · rw [hrest.1, hstep.1]
    · rw [hrest.2.1, hstep.2.1]
    · rw [hrest.2.2.1, hstep.2.2.1]
    · rw [hrest.2.2.2.1, hstep.2.2.2.1]
    · rw [hstep.2.2.2.2, hrest.2.2.2.2]
      simp

/-- Ticks that all come at least one second before the due time preserve
the run flag, the due time, the interval, the last-saved label and the
caption, and attempt no save. -/
theorem runTicks_early_pres (inputs : List TickInput) (st : SaverState)
    (h : ∀ inp ∈ inputs, 1 ≤ st.next_save_time - inp.now) :
    (runTicks st inputs).1.is_running = st.is_running ∧
    (runTicks st inputs).1.next_save_time = st.next_save_time ∧
    (runTicks st inputs).1.interval_seconds = st.interval_seconds ∧
    (runTicks st inputs).1.lbl_last_saved = st.lbl_last_saved ∧
    (runTicks st inputs).1.lbl_timer_desc = st.lbl_timer_desc ∧
    (runTicks st inputs).2 = 0 := by
  induction inputs generalizing st with
  | nil => simp [runTicks]
  | cons inp rest ih =>
    have h1 : 1 ≤ st.next_save_time - inp.now := h inp (by simp)
    have hstep := timer_loop_early_pres st inp h1
    have hrest := ih (timer_loop st inp).1 (fun i hi => by
      rw [hstep.2.1]
      exact h i (by simp [hi]))
    rw [runTicks]
    refine ⟨?_, ?_, ?_, ?_, ?_, ?_⟩ <;> simp only []
    · rw [hrest.1, hstep.1]
    · rw [hrest.2.1, hstep.2.1]
    · rw [hrest.2.2.1, hstep.2.2.1]
    · rw [hrest.2.2.2.1, hstep.2.2.2.1]
    · rw [hrest.2.2.2.2.1, hstep.2.2.2.2.1]
    · rw [hstep.2.2.2.2.2, hrest.2.2.2.2.2]
      simp

/-- Running the loop over a concatenation splits into the two runs, the
second starting from the first's final state; save counts add up. -/
theorem runTicks_append (l1 l2 : List TickInput) (st : SaverState) :
    runTicks st (l1 ++ l2) =
      ((runTicks (runTicks st l1).1 l2).1,
       (runTicks st l1).2 + (runTicks (runTicks st l1).1 l2).2) := by
  induction l1 generalizing st with
  | nil => simp [runTicks]
  | cons inp rest ih =>
    rw [List.cons_append, runTicks, runTicks, ih]
    simp [Nat.add_assoc]

/-- C1 counterexample: entering the custom interval `0` is not rejected —
`set_custom_interval` stores `interval_seconds = 0` (so the interval does
not remain positive), the state does change, and no error of any kind is
signalled (the only failure path is the silent `except: pass`). -/
theorem set_custom_interval_accepts_zero :
    (set_custom_interval initial_state (some 0)).interval_seconds = 0 ∧
    set_custom_interval initial_state (some 0) ≠ initial_state := by
  with_unfolding_all decide

/-- C1 amended: a custom-interval entry whose text does not parse is
rejected silently with no state change (and no `ConfigurationError` — no
error reaches the caller); a value that parses is stored unconditionally,
so a non-positive entry leaves `interval_seconds ≤ 0` in either unit mode. -/
theorem set_custom_interval_spec (st : SaverState) (v : ℚ) (hv : v ≤ 0) :
    set_custom_interval st none = st ∧
    (set_custom_interval st (some v)).interval_seconds ≤ 0 := by
  constructor
  · rfl
  · rw [set_custom_interval]
    by_cases hu : st.time_unit = "MIN"
    · simp only [hu, if_pos]
      exact pyTrunc_nonpos_of_nonpos (by nlinarith)
    · simp only [hu, if_neg, if_false]
      exact pyTrunc_nonpos_of_nonpos hv

/-- C1 witness: the amended statement evaluated at the initial state and
the concrete entry `-3`. -/
theorem set_custom_interval_spec_witness :
    set_custom_interval initial_state none = initial_state ∧
    (set_custom_interval initial_state (some (-3))).interval_seconds ≤ 0 :=
  set_custom_interval_spec initial_state (-3) (by with_unfolding_all decide)

/-- C2: while running, ticks that find the target absent never advance the
due time; appending one due tick that finds the target present yields
exactly one save attempt in the whole run, and the new due time is that
tick's clock reading plus the interval — not the missed due time plus the
interval. -/
theorem timer_loop_no_catch_up (st : SaverState) (ts : List TickInput) (p : TickInput)
    (hrun : st.is_running = true)
    (habs : ∀ inp ∈ ts, is_ableton_running inp.apps = false)
    (hpres : is_ableton_running p.apps = true)
    (hdue : st.next_save_time - p.now < 1) :
    (runTicks st ts).1.next_save_time = st.next_save_time ∧
    (runTicks st (ts ++ [p])).2 = 1 ∧
    (runTicks st (ts ++ [p])).1.next_save_time = p.now + (st.interval_seconds : ℚ) := by
  obtain ⟨hA1, hA2, hA3, hA4, hA5⟩ := runTicks_absent_pres ts st habs
  have hrun1 : (runTicks st ts).1.is_running = true := by
    rw [hA1]
    exact hrun
  have hdue1 : (runTicks st ts).1.next_save_time - p.now < 1 := by
    rw [hA2]
    exact hdue
  have hstep := timer_loop_due_present_eq (runTicks st ts).1 p hrun1 hdue1 hpres
  refine ⟨hA2, ?_, ?_⟩
  · rw [runTicks_append, hA5]
    simp [runTicks, hstep]
  · rw [runTicks_append]
    simp [runTicks, hstep, hA3]

/-- C2 witness: due at 300, the target is absent at the due ticks 305 and
306 (the second by a probe failure), then present at 312: the due time is
still 300 after the absent ticks, exactly one save attempt occurs, and the
new due time is 312 + 300. -/
theorem timer_loop_no_catch_up_witness :
    (runTicks monitoring300 absent_ticks).1.next_save_time = monitoring300.next_save_time ∧
    (runTicks monitoring300 (absent_ticks ++ [present_tick])).2 = 1 ∧
    (runTicks monitoring300 (absent_ticks ++ [present_tick])).1.next_save_time
      = present_tick.now + (monitoring300.interval_seconds : ℚ) :=
  timer_loop_no_catch_up monitoring300 absent_ticks present_tick rfl (by decide)
    (by decide) (by with_unfolding_all decide)

/-- C3 counterexample: with the scheduler running and a pending due time of
100, the stop toggle at time 42 turns `is_running` off but leaves
`next_save_time` at its stale value 100 — the due time is not cleared, so
"`nextDueAt` is defined iff `running = true`" fails on the stored state. -/
theorem toggle_running_stop_stale_due_time :
    (toggle_running monitoring100 42).is_running = false ∧
    (toggle_running monitoring100 42).next_save_time = 100 := by
  with_unfolding_all decide

/-- C3 amended: from any running state the stop toggle sets
`running = false` and resets the display to the idle prompt (description
"NEXT SAVE CYCLE" and the interval countdown), but it does not clear
`next_save_time`: the stale due time is retained (it is merely never read
while stopped). -/
theorem toggle_running_stop_spec (st : SaverState) (now : ℚ)
    (hrun : st.is_running = true) :
    (toggle_running st now).is_running = false ∧
    (toggle_running st now).lbl_timer_desc = "NEXT SAVE CYCLE" ∧
    (toggle_running st now).lbl_timer = timerDisplay st.interval_seconds ∧
    (toggle_running st now).btn_toggle_text = "START AUTO-SAVE" ∧
    (toggle_running st now).next_save_time = st.next_save_time := by
  rw [toggle_running]
  simp [hrun]

/-- C3 witness: the amended statement evaluated at a concrete running
state stopped at time 42. -/
theorem toggle_running_stop_spec_witness :
    (toggle_running monitoring100 42).is_running = false ∧
    (toggle_running monitoring100 42).lbl_timer_desc = "NEXT SAVE CYCLE" ∧
    (toggle_running monitoring100 42).lbl_timer = timerDisplay monitoring100.interval_seconds ∧
    (toggle_running monitoring100 42).btn_toggle_text = "START AUTO-SAVE" ∧
    (toggle_running monitoring100 42).next_save_time = monitoring100.next_save_time :=
  toggle_running_stop_spec monitoring100 42 rfl

/-- C4 counterexample: at a due tick with Ableton present and the save
invocation returning failure, the notification still fires — the code calls
`play_notification_sound()` unconditionally after `perform_save`, without
inspecting the save result. -/
theorem notification_on_failed_save :
    (timer_loop monitoring300 fail_tick).2.notified = true ∧
    (timer_loop monitoring300 fail_tick).1.lbl_last_saved
      = "Save failed @ " ++ strftimeHMS 305 := by
  with_unfolding_all decide

/-- C4 amended: on every tick, the completion notification fires exactly
when a save attempt occurs (the due branch with the target present) —
regardless of whether the save invocation succeeded or failed. -/
theorem notified_iff_save_attempted (st : SaverState) (inp : TickInput) :
    (timer_loop st inp).2.notified = (timer_loop st inp).2.save_attempted := by
  rw [timer_loop]
  cases hr : st.is_running
  · simp
  · by_cases hd : pyTrunc (st.next_save_time - inp.now) ≤ 0
    · cases hp : is_ableton_running inp.apps <;> simp [hd, hp]
    · simp [hd]

/-- C5 counterexample: with half a second still remaining
(`next_save_time - now = 1/2 > 0`), the tick is not a no-op: `int()`
truncates the remaining time to 0, the due branch fires with the target
present, and `next_save_time` changes. -/
theorem tick_not_idempotent_subsecond :
    (0 : ℚ) < monitoringHalf.next_save_time - 0 ∧
    (timer_loop monitoringHalf
        { now := 0, apps := abletonPresent, save_ok := true }).1.next_save_time
      ≠ monitoringHalf.next_save_time := by
  with_unfolding_all decide

/-- C5 amended: for every running state, any number of repeated ticks each
taken with at least one full second remaining (`next_save_time - now ≥ 1`,
the condition under which the truncated remaining time stays positive)
changes neither the due time nor the outcome labels — only the countdown
display — and attempts no save. -/
theorem tick_idempotent_one_second (st : SaverState) (inputs : List TickInput)
    (hrun : st.is_running = true)
    (h : ∀ inp ∈ inputs, 1 ≤ st.next_save_time - inp.now) :
    (runTicks st inputs).1.next_save_time = st.next_save_time ∧
    (runTicks st inputs).1.lbl_last_saved = st.lbl_last_saved ∧
    (runTicks st inputs).1.lbl_timer_desc = st.lbl_timer_desc ∧
    (runTicks st inputs).1.is_running = true ∧
    (runTicks st inputs).2 = 0 := by
  obtain ⟨h1, h2, h3, h4, h5, h6⟩ := runTicks_early_pres inputs st h
  refine ⟨h2, h4, h5, ?_, h6⟩
  rw [h1]
  exact hrun

/-- C5 witness: three early ticks (5, 10 and 299 seconds on the clock, due
time 300) leave the due time, the labels and the run flag unchanged and
attempt no save. -/
theorem tick_idempotent_one_second_witness :
    (runTicks monitoring300
        [{ now := 5, apps := abletonPresent, save_ok := true },
         { now := 10, apps := .error (), save_ok := false },
         { now := 299, apps := abletonPresent, save_ok := true }]).1.next_save_time
      = monitoring300.next_save_time ∧
    (runTicks monitoring300
        [{ now := 5, apps := abletonPresent, save_ok := true },
         { now := 10, apps := .error (), save_ok := false },
         { now := 299, apps := abletonPresent, save_ok := true }]).1.lbl_last_saved
      = monitoring300.lbl_last_saved ∧
    (runTicks monitoring300
        [{ now := 5, apps := abletonPresent, save_ok := true },
         { now := 10, apps := .error (), save_ok := false },
         { now := 299, apps := abletonPresent, save_ok := true }]).1.lbl_timer_desc
      = monitoring300.lbl_timer_desc ∧
    (runTicks monitoring300
        [{ now := 5, apps := abletonPresent, save_ok := true },
         { now := 10, apps := .error (), save_ok := false },
         { now := 299, apps := abletonPresent, save_ok := true }]).1.is_running = true ∧
    (runTicks monitoring300
        [{ now := 5, apps := abletonPresent, save_ok := true },
         { now := 10, apps := .error (), save_ok := false },
         { now := 299, apps := abletonPresent, save_ok := true }]).2 = 0 :=
  tick_idempotent_one_second monitoring300 _ rfl (by with_unfolding_all decide)

/-- C6: at a due tick with the target present and the save invocation
failing, the outcome label records the failure, a save attempt did occur,
the due time still advances to this tick's time plus the interval, and any
later tick taken at least a second before the new due time makes no
further attempt (no retry within the cycle). -/
theorem timer_loop_failed_save_advances (st : SaverState) (inp inp2 : TickInput)
    (hrun : st.is_running = true)
    (hdue : st.next_save_time - inp.now < 1)
    (hpres : is_ableton_running inp.apps = true)
    (hfail : inp.save_ok = false)
    (hlater : 1 ≤ (timer_loop st inp).1.next_save_time - inp2.now) :
    (timer_loop st inp).1.lbl_last_saved = "Save failed @ " ++ strftimeHMS inp.now ∧
    (timer_loop st inp).2.save_attempted = true ∧
    (timer_loop st inp).1.next_save_time = inp.now + (st.interval_seconds : ℚ) ∧
    (timer_loop (timer_loop st inp).1 inp2).2.save_attempted = false := by
  have hstep := timer_loop_due_present_eq st inp hrun hdue hpres
  refine ⟨?_, ?_, ?_, (timer_loop_early_pres _ inp2 hlater).2.2.2.2.2⟩
  · rw [hstep]
    simp [perform_save, hfail]
  · rw [hstep]
  · rw [hstep]

/-- C6 witness: due at 300, the save fails at the 305 tick; the failure is
recorded, the due time advances to 305 + 300, and the tick at 400 makes no
retry. -/
theorem timer_loop_failed_save_advances_witness :
    (timer_loop monitoring300 fail_tick).1.lbl_last_saved
      = "Save failed @ " ++ strftimeHMS 305 ∧
    (timer_loop monitoring300 fail_tick).2.save_attempted = true ∧
    (timer_loop monitoring300 fail_tick).1.next_save_time
      = 305 + (monitoring300.interval_seconds : ℚ) ∧
    (timer_loop (timer_loop monitoring300 fail_tick).1
        { now := 400, apps := abletonPresent, save_ok := true }).2.save_attempted = false :=
  timer_loop_failed_save_advances monitoring300 fail_tick
    { now := 400, apps := abletonPresent, save_ok := true } rfl
    (by with_unfolding_all decide) (by decide) rfl (by with_unfolding_all decide)

/-- C7: starting (toggling while stopped) at time `now` with a positive
interval turns the scheduler on and sets `next_save_time = now + interval`. -/
theorem start_sets_due_time (st : SaverState) (now : ℚ)
    (hstop : st.is_running = false) (_hpos : 0 < st.interval_seconds) :
    (toggle_running st now).is_running = true ∧
    (toggle_running st now).next_save_time = now + (st.interval_seconds : ℚ) := by
  rw [toggle_running]
  simp [hstop]

/-- C7 witness: starting from the initial state (interval 300) at time 7
schedules the first save attempt at 7 + 300. -/
theorem start_sets_due_time_witness :
    (toggle_running initial_state 7).is_running = true ∧
    (toggle_running initial_state 7).next_save_time = 7 + (initial_state.interval_seconds : ℚ) :=
  start_sets_due_time initial_state 7 rfl (by decide)

/-- C8: while running with a pending due time, changing the interval by
preset (`set_interval`) or custom entry (`set_custom_interval`) updates the
interval field but leaves the run flag and `next_save_time` unchanged; the
new interval takes effect only when the pending cycle completes — the due
tick after a preset change to `s` reschedules to its own time plus `s`. -/
theorem interval_change_preserves_due_time (st : SaverState) (s : ℤ) (idx : ℕ)
    (parsed : Option ℚ) (inp : TickInput)
    (hrun : st.is_running = true)
    (hdue : st.next_save_time - inp.now < 1)
    (hpres : is_ableton_running inp.apps = true) :
    (set_interval st s idx).next_save_time = st.next_save_time ∧
    (set_interval st s idx).is_running = true ∧
    (set_interval st s idx).interval_seconds = s ∧
    (set_custom_interval st parsed).next_save_time = st.next_save_time ∧
    (set_custom_interval st parsed).is_running = st.is_running ∧
    (timer_loop (set_interval st s idx) inp).1.next_save_time = inp.now + (s : ℚ) := by
  refine ⟨by simp [set_interval], by simp [set_interval, hrun], by simp [set_interval],
    ?_, ?_, ?_⟩
  · cases parsed <;> simp [set_custom_interval]
  · cases parsed <;> simp [set_custom_interval]
  · have hstep := timer_loop_due_present_eq (set_interval st s idx) inp
      (by simp [set_interval, hrun]) (by simp only [set_interval]; exact hdue) hpres
    rw [hstep]
    simp [set_interval]

/-- C8 witness: running with `next_save_time = 250` and interval 300,
switching to the 1m preset (60 s) or entering a custom value leaves the due
time at 250; the due tick at 250 then reschedules to 250 + 60. -/
theorem interval_change_preserves_due_time_witness :
    (set_interval monitoring250 60 0).next_save_time = monitoring250.next_save_time ∧
    (set_interval monitoring250 60 0).is_running = true ∧
    (set_interval monitoring250 60 0).interval_seconds = 60 ∧
    (set_custom_interval monitoring250 (some 2)).next_save_time
      = monitoring250.next_save_time ∧
    (set_custom_interval monitoring250 (some 2)).is_running = monitoring250.is_running ∧
    (timer_loop (set_interval monitoring250 60 0)
        { now := 250, apps := abletonPresent, save_ok := true }).1.next_save_time
      = 250 + ((60 : ℤ) : ℚ) :=
  interval_change_preserves_due_time monitoring250 60 0 (some 2)
    { now := 250, apps := abletonPresent, save_ok := true } rfl
    (by with_unfolding_all decide) (by decide)

/-- C9: a due tick whose presence probe raises (the AppKit query fails) is
treated exactly like a target-absent tick: no exception escapes (the
embedding of `is_ableton_running` is total and returns false), no save is
attempted, no notification fires, the paused labels are shown, the
scheduler stays running, and the due time is not advanced. -/
theorem probe_error_treated_absent (st : SaverState) (inp : TickInput)
    (hrun : st.is_running = true) (herr : inp.apps = .error ())
    (hdue : st.next_save_time - inp.now < 1) :
    (timer_loop st inp).2.save_attempted = false ∧
    (timer_loop st inp).2.notified = false ∧
    (timer_loop st inp).1.is_running = true ∧
    (timer_loop st inp).1.next_save_time = st.next_save_time ∧
    (timer_loop st inp).1.lbl_timer = "PAUSED" ∧
    (timer_loop st inp).1.lbl_timer_desc = "Open Ableton to resume" := by
  have habs : is_ableton_running inp.apps = false := by
    rw [herr]
    rfl
  have hd : pyTrunc (st.next_save_time - inp.now) ≤ 0 := (pyTrunc_nonpos_iff _).mpr hdue
  rw [timer_loop]
  simp [hrun, hd, habs]

/-- C9 witness: a probe failure at the due tick (time 305, due 300) pauses
without saving and keeps the scheduler running. -/
theorem probe_error_treated_absent_witness :
    (timer_loop monitoring300 { now := 305, apps := .error (), save_ok := true }).2.save_attempted
      = false ∧
    (timer_loop monitoring300 { now := 305, apps := .error (), save_ok := true }).2.notified
      = false ∧
    (timer_loop monitoring300 { now := 305, apps := .error (), save_ok := true }).1.is_running
      = true ∧
    (timer_loop monitoring300 { now := 305, apps := .error (), save_ok := true }).1.next_save_time
      = monitoring300.next_save_time ∧
    (timer_loop monitoring300 { now := 305, apps := .error (), save_ok := true }).1.lbl_timer
      = "PAUSED" ∧
    (timer_loop monitoring300 { now := 305, apps := .error (), save_ok := true }).1.lbl_timer_desc
      = "Open Ableton to resume" :=
  probe_error_treated_absent monitoring300 _ rfl rfl (by with_unfolding_all decide)

/-- C10: the tick truncates `next_save_time - now` toward zero to whole
seconds, so whenever the exact difference is below one second the due
branch is taken: the probe runs and a save is attempted exactly when the
target is present — a save can fire up to one second early. -/
theorem due_branch_truncation (st : SaverState) (inp : TickInput)
    (hrun : st.is_running = true)
    (hdue : st.next_save_time - inp.now < 1) :
    pyTrunc (st.next_save_time - inp.now) ≤ 0 ∧
    (timer_loop st inp).2.save_attempted = is_ableton_running inp.apps := by
  have hd : pyTrunc (st.next_save_time - inp.now) ≤ 0 := (pyTrunc_nonpos_iff _).mpr hdue
  refine ⟨hd, ?_⟩
  rw [timer_loop]
  cases hp : is_ableton_running inp.apps <;> simp [hrun, hd, hp]

/-- C10 witness: with the due time at 300 and the clock at 599/2 = 299.5
(half a second early), the truncated remaining time is already nonpositive
and the save attempt fires with the target present. -/
theorem due_branch_truncation_witness :
    pyTrunc (monitoring300.next_save_time - mkRat 599 2) ≤ 0 ∧
    (timer_loop monitoring300
        { now := mkRat 599 2, apps := abletonPresent, save_ok := true }).2.save_attempted
      = is_ableton_running abletonPresent :=
  due_branch_truncation monitoring300
    { now := mkRat 599 2, apps := abletonPresent, save_ok := true } rfl
    (by with_unfolding_all decide)
